import Mathlib

/-!
Shallow embedding of `src/mcp_mediawiki.py` (vilosource/mcp-mediawiki).

The MediaWiki backend (mwclient) is modelled as explicit data: a `Backend`
holds the outcome of opening a connection (`mwclient.Site(...)`) and of
`site.login(...)`; a `Site` holds the page table, the attributes that
`test_connection` probes with `hasattr`, and the search behaviour; a `Page`
holds the fields and method outcomes the handlers read.  Python exceptions
become the `PyExc` sum type and fallible operations return
`Except PyExc α`.  Each operation additionally returns the list of backend
calls it issued (`List BackendCall`), which makes "no backend call is made"
claims statable.
-/

/-- A revision timestamp as delivered by the backend: either a
`time.struct_time` (modelled by its first six components, the ones
`datetime(*t[:6])` consumes) or any other value (modelled as a string). -/
inductive Timestamp where
  | struct (year month day hour minute second : Nat)
  | str (s : String)
  deriving DecidableEq

/-- One revision record as yielded by `page.revisions()`.  The Python code
reads fields with `rev.get(...)` (absent keys give `None`), hence the
`Option` fields. -/
structure Revision where
  revid : Option Int
  user : Option String
  timestamp : Option Timestamp
  comment : Option String
  deriving DecidableEq

/-- A page object as returned by `site.pages[title]`.  `save` is the outcome
of `page.save(text=..., summary=...)`: `.ok` if the backend accepts the
write, `.error msg` if it raises. -/
structure Page where
  pageExists : Bool
  text : String
  ns : Int
  length : Int
  protection : List (String × List String)
  categories : List String
  revisions : List Revision
  save : String → String → Except String Unit

/-- A search hit: `r["title"]` is required (a missing key would raise),
`r.get("snippet")` is optional. -/
structure SearchHit where
  title : String
  snippet : Option String
  deriving DecidableEq

/-- A connected site object.  `siteInfoAttr`/`siteAttr` model the
`hasattr(site, "site_info")`/`hasattr(site, "site")` probes of
`test_connection` (`none` = attribute absent, `some g` = attribute present
with `.get("generator") = g`); likewise `loggedInAttr` and `usernameAttr`.
`search` is the outcome of `site.search(query, limit=limit)`. -/
structure Site where
  pages : String → Page
  siteInfoAttr : Option (Option String)
  siteAttr : Option (Option String)
  loggedInAttr : Option Bool
  usernameAttr : Option String
  search : String → Int → Except String (List SearchHit)

/-- The remote backend behaviour: `connect` is the outcome of
`mwclient.Site(host, path, scheme)` (which contacts the wiki), `login` the
outcome of `site.login(user, pass)`; error payloads are the `str(e)` of the
exception the library raised. -/
structure Backend where
  connect : Except String Site
  login : String → String → Except String Unit

/-- `WikiConfig`: connection parameters.  `scheme` is derived from the
`use_https` flag exactly as in `__init__`. -/
structure WikiConfig where
  host : String
  path : String
  use_https : Bool
  bot_user : Option String
  bot_pass : Option String

/-- `self.scheme = "https" if self.use_https else "http"`. -/
def WikiConfig.scheme (c : WikiConfig) : String :=
  if c.use_https then "https" else "http"

/-- Python truthiness of an optional string: `None` and `""` are falsy. -/
def pyTruthy : Option String → Bool
  | none => false
  | some s => !s.isEmpty

/-- `WikiConfig.is_auth_configured`: `bool(self.bot_user and self.bot_pass)`. -/
def WikiConfig.is_auth_configured (c : WikiConfig) : Bool :=
  pyTruthy c.bot_user && pyTruthy c.bot_pass

/-- The exceptions that flow through the module: the two classes it defines,
the `ValidationError` the pydantic schema layer raises, and `backendExc` for
any exception raised by the mwclient library (connect failure, login
failure, `StopIteration`, `KeyError`, ...). -/
inductive PyExc where
  | wikiPageNotFound (msg : String)
  | wikiOperationError (msg : String)
  | validationError (msg : String)
  | backendExc (msg : String)
  deriving DecidableEq

/-- `str(e)` for a modelled exception. -/
def PyExc.pyStr : PyExc → String
  | .wikiPageNotFound m => m
  | .wikiOperationError m => m
  | .validationError m => m
  | .backendExc m => m

/-- One call issued to the backend, for call-count reasoning. -/
inductive BackendCall where
  | connect (host path scheme : String)
  | login (user pass : String)
  | pageLookup (title : String)
  | save (title text summary : String)
  | search (query : String) (limit : Int)
  deriving DecidableEq

/-- `WikiClient.get_site`: build a fresh connection; if auth is configured,
attempt `site.login(bot_user, bot_pass)` and on failure re-raise the
library exception unchanged (the `except` block logs and bare-`raise`s). -/
def WikiClient.get_site (cfg : WikiConfig) (b : Backend) :
    Except PyExc Site × List BackendCall :=
  match b.connect with
  | .error m => (.error (.backendExc m), [.connect cfg.host cfg.path cfg.scheme])
  | .ok site =>
    if cfg.is_auth_configured then
      let u := cfg.bot_user.getD ""
      let p := cfg.bot_pass.getD ""
      match b.login u p with
      | .error m =>
        (.error (.backendExc m),
         [.connect cfg.host cfg.path cfg.scheme, .login u p])
      | .ok _ =>
        (.ok site, [.connect cfg.host cfg.path cfg.scheme, .login u p])
    else
      (.ok site, [.connect cfg.host cfg.path cfg.scheme])

/-- A JSON scalar, enough for the dicts this module builds. -/
inductive JsonVal where
  | str (s : String)
  | bool (b : Bool)
  | null
  deriving DecidableEq

/-- A JSON object as an ordered key/value list (Python dict literal order). -/
abbrev JsonObj := List (String × JsonVal)

/-- Encode an optional string the way the status dict does (`None` → null). -/
def jsonOfOptStr : Option String → JsonVal
  | none => .null
  | some s => .str s

/-- Encode an optional bool (`None` → null). -/
def jsonOfOptBool : Option Bool → JsonVal
  | none => .null
  | some b => .bool b

/-- `WikiClient.test_connection`: try to connect; on success build the
`status: ok` dict (version via the `hasattr` chain, `logged_in`/`username`
via `hasattr` guards); on any exception build the `status: error` dict with
`error = str(e)`.  Never raises. -/
def WikiClient.test_connection (cfg : WikiConfig) (b : Backend) :
    JsonObj × List BackendCall :=
  match WikiClient.get_site cfg b with
  | (.error e, tr) =>
    ([("status", .str "error"),
      ("host", .str cfg.host),
      ("error", .str e.pyStr)], tr)
  | (.ok site, tr) =>
    let version : Option String :=
      match site.siteInfoAttr with
      | some g => g
      | none =>
        match site.siteAttr with
        | some g => g
        | none => none
    ([("status", .str "ok"),
      ("host", .str cfg.host),
      ("path", .str cfg.path),
      ("scheme", .str cfg.scheme),
      ("mediawiki_version", jsonOfOptStr version),
      ("logged_in", jsonOfOptBool site.loggedInAttr),
      ("username", jsonOfOptStr site.usernameAttr)], tr)

/-- The `server_status` tool: delegates to `wiki_client.test_connection()`. -/
def server_status (cfg : WikiConfig) (b : Backend) : JsonObj × List BackendCall :=
  WikiClient.test_connection cfg b

/-- Pydantic model `PageMetadata`. -/
structure PageMetadata where
  url : String
  last_modified : String
  ns : Int
  length : Int
  protection : List (String × List String)
  categories : List String
  deriving DecidableEq

/-- Pydantic model `PageInfo`. -/
structure PageInfo where
  title : String
  content : String
  metadata : PageMetadata
  deriving DecidableEq

/-- Pydantic model `UpdatePageResponse`; the optional fields default to
`None` when not passed. -/
structure UpdatePageResponse where
  status : String
  title : String
  url : Option String := none
  content : Option String := none
  summary : Option String := none
  deriving DecidableEq

/-- The canonical page URL the handlers interpolate:
`scheme://host path index.php/ title`. -/
def pageUrl (cfg : WikiConfig) (title : String) : String :=
  cfg.scheme ++ "://" ++ cfg.host ++ cfg.path ++ "index.php/" ++ title

/-- Zero-pad a natural to two digits, as `datetime.isoformat` prints
month, day, hour, minute, second. -/
def pad2 (n : Nat) : String :=
  if n < 10 then "0" ++ toString n else toString n

/-- Zero-pad a natural to four digits, as `datetime.isoformat` prints the
year. -/
def pad4 (n : Nat) : String :=
  (if n < 10 then "000" else if n < 100 then "00" else if n < 1000 then "0" else "")
    ++ toString n

/-- `datetime(y, mo, d, h, mi, s).isoformat()` (microseconds are zero, so
the result is `YYYY-MM-DDTHH:MM:SS`). -/
def isoformat (y mo d h mi s : Nat) : String :=
  pad4 y ++ "-" ++ pad2 mo ++ "-" ++ pad2 d ++ "T" ++ pad2 h ++ ":" ++ pad2 mi
    ++ ":" ++ pad2 s

/-- The `last_modified` computation of `get_page`: convert only if the value
is a `time.struct_time`; any other value is passed through unchanged. -/
def tsToLastModified : Timestamp → String
  | .struct y mo d h mi s => isoformat y mo d h mi s
  | .str s => s

/-- The exception mapping of `get_page`'s `except` clauses: a
`WikiPageNotFoundError` is re-raised unchanged, anything else is wrapped
into `WikiOperationError(f"Failed to get page: ...")`. -/
def getPageWrap (title : String) : PyExc → PyExc
  | .wikiPageNotFound m => .wikiPageNotFound m
  | e => .wikiOperationError
      ("Failed to get page \x27" ++ title ++ "\x27: " ++ e.pyStr)

/-- The `get_page` tool: fresh connection, page lookup, existence check
(raising `WikiPageNotFoundError` on a missing page), first yielded revision
(`next(page.revisions())` — `StopIteration` on an empty history and a
`KeyError` on a missing timestamp key are caught by the catch-all),
category list, and the `PageInfo` result. -/
def get_page (cfg : WikiConfig) (b : Backend) (title : String) :
    Except PyExc PageInfo × List BackendCall :=
  match WikiClient.get_site cfg b with
  | (.error e, tr) => (.error (getPageWrap title e), tr)
  | (.ok site, tr) =>
    let page := site.pages title
    let tr := tr ++ [.pageLookup title]
    if !page.pageExists then
      (.error (.wikiPageNotFound ("Page \x27" ++ title ++ "\x27 not found")), tr)
    else
      match page.revisions with
      | [] => (.error (getPageWrap title (.backendExc "StopIteration")), tr)
      | firstRev :: _ =>
        match firstRev.timestamp with
        | none =>
          (.error (getPageWrap title (.backendExc "\x27timestamp\x27")), tr)
        | some ts =>
          (.ok { title := title
                 content := page.text
                 metadata :=
                   { url := pageUrl cfg title
                     last_modified := tsToLastModified ts
                     ns := page.ns
                     length := page.length
                     protection := page.protection
                     categories := page.categories } }, tr)

/-- The exception mapping of `update_page`'s single `except Exception`
clause: every exception is wrapped. -/
def updatePageWrap (title : String) (e : PyExc) : PyExc :=
  .wikiOperationError
    ("Failed to update page \x27" ++ title ++ "\x27: " ++ e.pyStr)

/-- The `update_page` tool: when `dry_run` is true it returns the dry-run
response before entering the `try` block, so no connection is acquired and
no backend call is made; otherwise it connects, looks the page up, calls
`page.save(text=content, summary=summary)` and returns the success
response with the canonical URL. -/
def update_page (cfg : WikiConfig) (b : Backend)
    (title content summary : String) (dry_run : Bool) :
    Except PyExc UpdatePageResponse × List BackendCall :=
  if dry_run then
    (.ok { status := "dry-run", title := title,
           content := some content, summary := some summary }, [])
  else
    match WikiClient.get_site cfg b with
    | (.error e, tr) => (.error (updatePageWrap title e), tr)
    | (.ok site, tr) =>
      let page := site.pages title
      let tr := tr ++ [.pageLookup title, .save title content summary]
      match page.save content summary with
      | .error m => (.error (updatePageWrap title (.backendExc m)), tr)
      | .ok _ =>
        (.ok { status := "success", title := title,
               url := some (pageUrl cfg title) }, tr)

/-- Result dict of `search_pages`. -/
structure SearchOut where
  results : List SearchHit
  total : Nat
  query : String
  deriving DecidableEq

/-- The exception mapping of `search_pages`'s `except Exception` clause. -/
def searchWrap (e : PyExc) : PyExc :=
  .wikiOperationError ("Failed to search wiki: " ++ e.pyStr)

/-- The `search_pages` handler body: connect, run `site.search(query,
limit=limit)`, map each hit to a title/snippet dict and return the result
dict with `total = len(pages)`. -/
def search_pages (cfg : WikiConfig) (b : Backend) (query : String)
    (limit : Int) : Except PyExc SearchOut × List BackendCall :=
  match WikiClient.get_site cfg b with
  | (.error e, tr) => (.error (searchWrap e), tr)
  | (.ok site, tr) =>
    let tr := tr ++ [.search query limit]
    match site.search query limit with
    | .error m => (.error (searchWrap (.backendExc m)), tr)
    | .ok hits =>
      (.ok { results := hits.map fun r => { title := r.title, snippet := r.snippet }
             total := (hits.map fun r =>
               SearchHit.mk r.title r.snippet).length
             query := query }, tr)

/-- The schema-layer bound check on `limit` declared by
`Field(default=10, ge=1, le=50)`: the pydantic/FastMCP tool layer rejects
an out-of-range `limit` with a `ValidationError` before the handler body
(and hence any backend call) runs. -/
def search_pages_tool (cfg : WikiConfig) (b : Backend) (query : String)
    (limit : Int) : Except PyExc SearchOut × List BackendCall :=
  if limit < 1 || 50 < limit then
    (.error (.validationError
      "Input should be greater than or equal to 1 and less than or equal to 50"), [])
  else
    search_pages cfg b query limit

/-- One entry of the `get_page_history` result list; values are read with
`rev.get(...)`, hence optional, and the timestamp is returned raw. -/
structure RevisionOut where
  revid : Option Int
  user : Option String
  timestamp : Option Timestamp
  comment : Option String
  deriving DecidableEq

/-- The exception mapping of `get_page_history`'s `except` clauses: a
`WikiPageNotFoundError` is re-raised unchanged, anything else is wrapped. -/
def historyWrap (title : String) : PyExc → PyExc
  | .wikiPageNotFound m => .wikiPageNotFound m
  | e => .wikiOperationError
      ("Failed to get page history for \x27" ++ title ++ "\x27: " ++ e.pyStr)

/-- The `get_page_history` tool: connect, look the page up, raise
`WikiPageNotFoundError` if it does not exist, else map the first `limit`
revisions the backend yields (`page.revisions(limit=limit)`) to result
dicts. -/
def get_page_history (cfg : WikiConfig) (b : Backend) (title : String)
    (limit : Int) : Except PyExc (List RevisionOut) × List BackendCall :=
  match WikiClient.get_site cfg b with
  | (.error e, tr) => (.error (historyWrap title e), tr)
  | (.ok site, tr) =>
    let page := site.pages title
    let tr := tr ++ [.pageLookup title]
    if !page.pageExists then
      (.error (.wikiPageNotFound ("Page \x27" ++ title ++ "\x27 not found")), tr)
    else
      (.ok ((page.revisions.take limit.toNat).map fun r =>
        { revid := r.revid, user := r.user,
          timestamp := r.timestamp, comment := r.comment }), tr)

/-- The static body that `root_handler` returns for `GET /`: it does not
consult the backend at all. -/
def rootBody : JsonObj :=
  [("status", .str "ok"),
   ("server", .str "mcp-mediawiki"),
   ("version", .str "0.2.0"),
   ("transport", .str "sse")]

/-- `GET /`: `JSONResponse` of the static body, HTTP 200 (the starlette
default status code). -/
def root_handler (_cfg : WikiConfig) (_b : Backend) : Nat × JsonObj :=
  (200, rootBody)

/-- `GET /health`: `JSONResponse` of `wiki_client.test_connection()`,
HTTP 200. -/
def health_handler (cfg : WikiConfig) (b : Backend) : Nat × JsonObj :=
  (200, (WikiClient.test_connection cfg b).1)

/-- Shape of `datetime.isoformat()` output with zero microseconds:
`YYYY-MM-DDTHH:MM:SS`. -/
def isoShape (s : String) : Bool :=
  match s.toList with
  | [y1, y2, y3, y4, c1, m1, m2, c2, d1, d2, t, h1, h2, c3, i1, i2, c4, s1, s2] =>
    [y1, y2, y3, y4, m1, m2, d1, d2, h1, h2, i1, i2, s1, s2].all Char.isDigit
      && c1 = Char.ofNat 45 && c2 = Char.ofNat 45 && t = Char.ofNat 84
      && c3 = Char.ofNat 58 && c4 = Char.ofNat 58
  | _ => false

/-- Concrete fixture: the existing page of the repository's test fake
(`FakePage("Existing")`): two revisions, newest first per backend-native
order, with plain string timestamps, and a backend that accepts saves. -/
def pageExisting : Page :=
  { pageExists := true
    text := "text"
    ns := 0
    length := 4
    protection := []
    categories := ["Category"]
    revisions :=
      [{ revid := some 1, user := some "u1",
         timestamp := some (.str "t1"), comment := some "c1" },
       { revid := some 2, user := some "u2",
         timestamp := some (.str "t2"), comment := some "c2" }]
    save := fun _ _ => .ok () }

/-- Concrete fixture: a page object for a title the wiki does not have
(`FakePage(key, exists=False)`). -/
def pageMissing : Page :=
  { pageExists := false
    text := "text"
    ns := 0
    length := 4
    protection := []
    categories := []
    revisions := []
    save := fun _ _ => .ok () }

/-- Concrete fixture: the test fake site — one existing page, a generator
string, and a two-hit search result. -/
def siteStd : Site :=
  { pages := fun t => if t = "Existing" then pageExisting else pageMissing
    siteInfoAttr := some (some "FakeWiki 1.0")
    siteAttr := none
    loggedInAttr := some true
    usernameAttr := some "bot"
    search := fun _ limit =>
      .ok ([{ title := "Page1", snippet := some "Snippet1" },
            { title := "Page2", snippet := some "Snippet2" }].take limit.toNat) }

/-- Concrete fixture: a reachable backend that accepts logins. -/
def backendStd : Backend :=
  { connect := .ok siteStd, login := fun _ _ => .ok () }

/-- Concrete fixture: an unreachable backend (`mwclient.Site` raises). -/
def backendDown : Backend :=
  { connect := .error "Unable to connect", login := fun _ _ => .ok () }

/-- Concrete fixture: a reachable backend that rejects every login. -/
def backendBadLogin : Backend :=
  { connect := .ok siteStd, login := fun _ _ => .error "Login rejected" }

/-- Concrete fixture: configuration without bot credentials. -/
def cfgNoAuth : WikiConfig :=
  { host := "wiki.example.com", path := "/wiki/", use_https := true,
    bot_user := none, bot_pass := none }

/-- Concrete fixture: configuration with bot credentials. -/
def cfgAuth : WikiConfig :=
  { host := "wiki.example.com", path := "/wiki/", use_https := true,
    bot_user := some "bot", bot_pass := some "pw" }

/-- Concrete fixture: a revision whose timestamp is a `time.struct_time`. -/
def revStruct : Revision :=
  { revid := some 7, user := some "u",
    timestamp := some (.struct 2024 1 2 3 4 5), comment := some "c" }

/-- Concrete fixture: a page whose single revision carries a struct-time
timestamp. -/
def pageStructTs : Page :=
  { pageExists := true
    text := "body"
    ns := 0
    length := 4
    protection := [("edit", ["sysop"])]
    categories := ["C"]
    revisions := [revStruct]
    save := fun _ _ => .ok () }

/-- Concrete fixture: a site serving `pageStructTs` for every title. -/
def siteStructTs : Site :=
  { pages := fun _ => pageStructTs
    siteInfoAttr := none
    siteAttr := none
    loggedInAttr := none
    usernameAttr := none
    search := fun _ _ => .error "search unavailable" }

/-- Concrete fixture: a reachable backend serving `siteStructTs`. -/
def backendStructTs : Backend :=
  { connect := .ok siteStructTs, login := fun _ _ => .ok () }

/-- Sanity check that `isoShape` recognises `isoformat` output. -/
theorem isoformat_shape_sample :
    isoShape (isoformat 2024 1 2 3 4 5) = true := by decide

/-- C1: for every title whose page the backend reports as non-existent
(under a successfully acquired connection), `get_page` and
`get_page_history` fail with `WikiPageNotFoundError` — never with
`WikiOperationError` — and both catch-all wrappers re-raise a
`WikiPageNotFoundError` unchanged. -/
theorem claim_C1_not_found_passthrough
    (cfg : WikiConfig) (b : Backend) (site : Site) (title : String)
    (limit : Int)
    (hsite : (WikiClient.get_site cfg b).1 = .ok site)
    (hmiss : (site.pages title).pageExists = false) :
    (get_page cfg b title).1
      = .error (.wikiPageNotFound ("Page \x27" ++ title ++ "\x27 not found"))
    ∧ (get_page_history cfg b title limit).1
      = .error (.wikiPageNotFound ("Page \x27" ++ title ++ "\x27 not found"))
    ∧ (∀ m, getPageWrap title (.wikiPageNotFound m) = .wikiPageNotFound m)
    ∧ (∀ m, historyWrap title (.wikiPageNotFound m) = .wikiPageNotFound m) := by
  rcases hgs : WikiClient.get_site cfg b with ⟨r, tr⟩
  rw [hgs] at hsite
  simp only at hsite
  subst hsite
  refine ⟨?_, ?_, fun m => rfl, fun m => rfl⟩
  · unfold get_page
    rw [hgs]
    simp [hmiss]
  · unfold get_page_history
    rw [hgs]
    simp [hmiss]

/-- Witness for C1 at a concrete missing page. -/
theorem claim_C1_not_found_passthrough_witness :
    (get_page cfgNoAuth backendStd "Missing").1
      = .error (.wikiPageNotFound "Page \x27Missing\x27 not found") :=
  ((claim_C1_not_found_passthrough cfgNoAuth backendStd siteStd "Missing" 5
      rfl (by decide)).1).trans rfl

/-- C2: a dry-run `update_page` issues no backend call at all (in
particular no save) and returns the dry-run response echoing title,
content and summary. -/
theorem claim_C2_dry_run_no_write (cfg : WikiConfig) (b : Backend)
    (title content summary : String) :
    update_page cfg b title content summary true
      = (.ok { status := "dry-run", title := title,
               content := some content, summary := some summary }, []) := rfl

/-- C3 counterexample: over a network transport with an unreachable
backend, `GET /` does not return the `server_status()` record — the two
bodies differ, refuting the claim that both endpoints return it. -/
theorem claim_C3_counterexample :
    root_handler cfgNoAuth backendDown
      ≠ (200, (server_status cfgNoAuth backendDown).1) := by decide

/-- C3 (amended): `GET /health` returns the `server_status()` record as
JSON with HTTP 200 for every backend state; `GET /` returns a fixed static
record (status/server/version/transport) with HTTP 200, independent of
backend state. -/
theorem claim_C3_health_and_root (cfg : WikiConfig) (b : Backend) :
    health_handler cfg b = (200, (server_status cfg b).1)
    ∧ root_handler cfg b = (200, rootBody) :=
  ⟨rfl, rfl⟩

/-- C10: a dry-run `update_page` returns before any connection is acquired,
so its outcome is a function of the inputs alone: any two runs — different
configurations, different backends — give the identical successful dry-run
response with an empty backend-call trace. -/
theorem claim_C10_dry_run_backend_independent
    (cfg₁ cfg₂ : WikiConfig) (b₁ b₂ : Backend)
    (title content summary : String) :
    update_page cfg₁ b₁ title content summary true
      = update_page cfg₂ b₂ title content summary true
    ∧ (update_page cfg₁ b₁ title content summary true).2 = []
    ∧ (update_page cfg₁ b₁ title content summary true).1
      = .ok { status := "dry-run", title := title,
              content := some content, summary := some summary } :=
  ⟨rfl, rfl, rfl⟩

/-- C4 counterexample: with bot credentials configured and a backend that
rejects the login, `get_page` fails with the generic `WikiOperationError`
(wrapping the login failure), not with a distinct authentication error —
the module defines no such error class. -/
theorem claim_C4_counterexample :
    (get_page cfgAuth backendBadLogin "Existing").1
      = .error (.wikiOperationError
          "Failed to get page \x27Existing\x27: Login rejected") := rfl

/-- C4 (amended): when bot credentials are configured and the backend
rejects the login, `get_site` re-raises the backend's own exception
unchanged after exactly one connect and one login attempt (no retry, no
silent downgrade to anonymous mode), and an operation such as `get_page`
then wraps it into `WikiOperationError` carrying the backend's message —
the code defines no distinct `AuthenticationError` type. -/
theorem claim_C4_login_failure_wrapped
    (cfg : WikiConfig) (b : Backend) (site : Site) (m title : String)
    (hauth : cfg.is_auth_configured = true)
    (hconn : b.connect = .ok site)
    (hlogin : b.login (cfg.bot_user.getD "") (cfg.bot_pass.getD "")
      = .error m) :
    WikiClient.get_site cfg b
      = (.error (.backendExc m),
         [.connect cfg.host cfg.path cfg.scheme,
          .login (cfg.bot_user.getD "") (cfg.bot_pass.getD "")])
    ∧ (get_page cfg b title).1
      = .error (.wikiOperationError
          ("Failed to get page \x27" ++ title ++ "\x27: " ++ m)) := by
  have hgs : WikiClient.get_site cfg b
      = (.error (.backendExc m),
         [.connect cfg.host cfg.path cfg.scheme,
          .login (cfg.bot_user.getD "") (cfg.bot_pass.getD "")]) := by
    unfold WikiClient.get_site
    rw [hconn]
    simp [hauth, hlogin]
  refine ⟨hgs, ?_⟩
  unfold get_page
  rw [hgs]
  rfl

/-- Witness for C4 (amended) at a concrete rejecting backend. -/
theorem claim_C4_login_failure_wrapped_witness :
    (get_page cfgAuth backendBadLogin "Other").1
      = .error (.wikiOperationError
          "Failed to get page \x27Other\x27: Login rejected") :=
  ((claim_C4_login_failure_wrapped cfgAuth backendBadLogin siteStd
      "Login rejected" "Other" (by decide) rfl rfl).2).trans rfl

/-- C5: an out-of-range `limit` makes the `search_pages` tool fail with a
`ValidationError` while issuing zero backend calls; an in-range `limit`
passes validation (the tool runs the handler, which never produces a
`ValidationError`). -/
theorem claim_C5_limit_validation (cfg : WikiConfig) (b : Backend)
    (query : String) (limit : Int) :
    (¬(1 ≤ limit ∧ limit ≤ 50) →
      search_pages_tool cfg b query limit
        = (.error (.validationError
            "Input should be greater than or equal to 1 and less than or equal to 50"),
           []))
    ∧ ((1 ≤ limit ∧ limit ≤ 50) →
      search_pages_tool cfg b query limit = search_pages cfg b query limit
      ∧ ∀ m, (search_pages cfg b query limit).1
          ≠ .error (.validationError m)) := by
  constructor
  · intro h
    have h1 : limit < 1 ∨ 50 < limit := by omega
    unfold search_pages_tool
    rcases h1 with h1 | h1 <;> simp [h1]
  · intro h
    constructor
    · unfold search_pages_tool
      simp [show ¬limit < 1 by omega, show ¬(50 : Int) < limit by omega]
    · intro m
      unfold search_pages
      rcases hgs : WikiClient.get_site cfg b with ⟨r, tr⟩
      cases r with
      | error e => simp [searchWrap]
      | ok site =>
        cases hs : site.search query limit with
        | error msg => simp [hs, searchWrap]
        | ok hits => simp [hs]

/-- Witness for C5: `limit = 0` is rejected with no backend call,
`limit = 10` passes validation. -/
theorem claim_C5_limit_validation_witness :
    search_pages_tool cfgNoAuth backendStd "abc" 0
      = (.error (.validationError
          "Input should be greater than or equal to 1 and less than or equal to 50"),
         [])
    ∧ search_pages_tool cfgNoAuth backendStd "abc" 10
      = search_pages cfgNoAuth backendStd "abc" 10 :=
  ⟨(claim_C5_limit_validation cfgNoAuth backendStd "abc" 0).1 (by decide),
   ((claim_C5_limit_validation cfgNoAuth backendStd "abc" 10).2 (by decide)).1⟩

/-- C6: a non-dry-run `update_page` against a backend that accepts the
write returns the success response — status "success", the input title,
and the canonical URL built deterministically from the configuration and
the title — with `content` and `summary` absent; on a dry run the response
instead carries `content` and `summary` and no URL. -/
theorem claim_C6_update_success (cfg : WikiConfig) (b : Backend)
    (site : Site) (title content summary : String)
    (hsite : (WikiClient.get_site cfg b).1 = .ok site)
    (hsave : (site.pages title).save content summary = .ok ()) :
    (update_page cfg b title content summary false).1
      = .ok { status := "success", title := title,
              url := some (pageUrl cfg title) }
    ∧ pageUrl cfg title
      = cfg.scheme ++ "://" ++ cfg.host ++ cfg.path ++ "index.php/" ++ title
    ∧ (update_page cfg b title content summary true).1
      = .ok { status := "dry-run", title := title,
              content := some content, summary := some summary } := by
  refine ⟨?_, rfl, rfl⟩
  rcases hgs : WikiClient.get_site cfg b with ⟨r, tr⟩
  rw [hgs] at hsite
  simp only at hsite
  subst hsite
  unfold update_page
  rw [hgs]
  simp [hsave]

/-- Witness for C6 at the concrete accepting backend. -/
theorem claim_C6_update_success_witness :
    (update_page cfgNoAuth backendStd "Existing" "updated" "sum" false).1
      = .ok { status := "success", title := "Existing",
              url := some "https://wiki.example.com/wiki/index.php/Existing" } :=
  ((claim_C6_update_success cfgNoAuth backendStd siteStd "Existing"
      "updated" "sum" rfl rfl).1).trans rfl

/-- C7 counterexample: a backend that delivers the first revision's
timestamp as the plain string "t1" (as the repository's own test fake
does) makes `get_page` return `last_modified = "t1"` — passed through
unchanged, not converted to an ISO-8601 string. -/
theorem claim_C7_counterexample :
    (get_page cfgNoAuth backendStd "Existing").1
      = .ok { title := "Existing", content := "text",
              metadata :=
                { url := "https://wiki.example.com/wiki/index.php/Existing",
                  last_modified := "t1", ns := 0, length := 4,
                  protection := [], categories := ["Category"] } }
    ∧ isoShape "t1" = false :=
  ⟨rfl, by decide⟩

/-- C7 (amended): `get_page` sets `lastModified` to the timestamp of the
first revision the backend yields, converted through `tsToLastModified`:
a `time.struct_time` becomes the ISO-8601 `datetime(...).isoformat()`
string, while any other form is passed through unchanged. -/
theorem claim_C7_last_modified (cfg : WikiConfig) (b : Backend)
    (site : Site) (title : String) (firstRev : Revision)
    (rest : List Revision) (ts : Timestamp)
    (hsite : (WikiClient.get_site cfg b).1 = .ok site)
    (hex : (site.pages title).pageExists = true)
    (hrevs : (site.pages title).revisions = firstRev :: rest)
    (hts : firstRev.timestamp = some ts) :
    (get_page cfg b title).1
      = .ok { title := title
              content := (site.pages title).text
              metadata :=
                { url := pageUrl cfg title
                  last_modified := tsToLastModified ts
                  ns := (site.pages title).ns
                  length := (site.pages title).length
                  protection := (site.pages title).protection
                  categories := (site.pages title).categories } } := by
  rcases hgs : WikiClient.get_site cfg b with ⟨r, tr⟩
  rw [hgs] at hsite
  simp only at hsite
  subst hsite
  unfold get_page
  rw [hgs]
  simp [hex, hrevs, hts]

/-- Witness for C7 (amended) at a backend delivering a struct-time
timestamp, exercising the ISO-8601 conversion branch. -/
theorem claim_C7_last_modified_witness :
    (get_page cfgNoAuth backendStructTs "Any").1
      = .ok { title := "Any", content := "body",
              metadata :=
                { url := "https://wiki.example.com/wiki/index.php/Any",
                  last_modified := "2024-01-02T03:04:05", ns := 0,
                  length := 4, protection := [("edit", ["sysop"])],
                  categories := ["C"] } } :=
  (claim_C7_last_modified cfgNoAuth backendStructTs siteStructTs "Any"
      revStruct [] (.struct 2024 1 2 3 4 5) rfl rfl rfl rfl).trans rfl

/-- C8: for an existing page and an in-range `limit`, `get_page_history`
returns exactly the first `limit` revisions the backend yields (its native
newest-first order), each mapped to a revid/user/timestamp/comment record,
and hence at most `limit` entries. -/
theorem claim_C8_history_take_limit (cfg : WikiConfig) (b : Backend)
    (site : Site) (title : String) (limit : Int)
    (hsite : (WikiClient.get_site cfg b).1 = .ok site)
    (hex : (site.pages title).pageExists = true)
    (h1 : 1 ≤ limit) (h50 : limit ≤ 50) :
    (get_page_history cfg b title limit).1
      = .ok (((site.pages title).revisions.take limit.toNat).map fun r =>
          { revid := r.revid, user := r.user, timestamp := r.timestamp,
            comment := r.comment })
    ∧ (((site.pages title).revisions.take limit.toNat).map fun r =>
        ({ revid := r.revid, user := r.user, timestamp := r.timestamp,
           comment := r.comment } : RevisionOut)).length ≤ limit.toNat := by
  constructor
  · rcases hgs : WikiClient.get_site cfg b with ⟨r, tr⟩
    rw [hgs] at hsite
    simp only at hsite
    subst hsite
    unfold get_page_history
    rw [hgs]
    simp [hex]
  · simp [List.length_map, List.length_take]

/-- Witness for C8: the spec's own scenario — two revisions, `limit = 1` —
returns exactly the first (most recent) revision, with `revid = 1`. -/
theorem claim_C8_history_take_limit_witness :
    (get_page_history cfgNoAuth backendStd "Existing" 1).1
      = .ok [{ revid := some 1, user := some "u1",
               timestamp := some (.str "t1"), comment := some "c1" }] :=
  ((claim_C8_history_take_limit cfgNoAuth backendStd siteStd "Existing" 1
      rfl (by decide) (by decide) (by decide)).1).trans rfl

/-- C9: `server_status` (i.e. `WikiClient.test_connection`) is a total
function: whatever the backend does — unreachable host, rejected login, or
a healthy connection — it returns either the ok-status record or the
error-status record carrying the host and the failure message, and never
raises. -/
theorem claim_C9_server_status_total (cfg : WikiConfig) (b : Backend) :
    (∃ e, (WikiClient.get_site cfg b).1 = .error e
      ∧ (server_status cfg b).1
        = [("status", .str "error"), ("host", .str cfg.host),
           ("error", .str e.pyStr)])
    ∨ (∃ site, (WikiClient.get_site cfg b).1 = .ok site
      ∧ ((server_status cfg b).1).head? = some ("status", .str "ok")) := by
  unfold server_status WikiClient.test_connection
  rcases hgs : WikiClient.get_site cfg b with ⟨r, tr⟩
  cases r with
  | error e =>
    left
    exact ⟨e, rfl, by simp⟩
  | ok site =>
    right
    exact ⟨site, rfl, by simp⟩
